import Mathlib

/-!
Verification development for the high-risk-zone editor slice of the
tourist-safety dashboard: the `useZones` data hook
(`src/hooks/useZones.ts`) and the zone-editor component
(`src/components/high-risk-zones.tsx`).

The remote store is external: every round trip is modelled by an explicit
outcome value handed to the function under scrutiny, so each operation is a
pure function of its prior state and the response it observed.  Numbers are
modelled over the rationals.
-/

namespace ZoneEditor

/-- Geographic point, source type `{ lat: number; lng: number }`. -/
structure Coord where
  lat : ℚ
  lng : ℚ
deriving DecidableEq, Repr

/-- Severity enumeration of `HighRiskZone.severity`. -/
inductive Severity where
  | low
  | medium
  | high
  | critical
deriving DecidableEq, Repr

/-- The string value a severity carries on the wire and in template strings. -/
def Severity.toWire : Severity → String
  | .low => "low"
  | .medium => "medium"
  | .high => "high"
  | .critical => "critical"

/-- The `HighRiskZone` interface shared by the hook and the component. -/
structure HighRiskZone where
  id : String
  name : String
  description : String
  coordinates : List Coord
  severity : Severity
  createdAt : String
  createdBy : String
  isActive : Bool
deriving DecidableEq, Repr

/-- The `ZoneLog.action` union type. -/
inductive ZoneAction where
  | created
  | deleted
  | modified
deriving DecidableEq, Repr

/-- The `ZoneLog` interface. -/
structure ZoneLog where
  id : String
  action : ZoneAction
  zoneName : String
  timestamp : String
  officer : String
  details : String
deriving DecidableEq, Repr

/-- The `ZonesData` payload POSTed to the remote store: the full snapshot. -/
structure ZonesData where
  zones : List HighRiskZone
  logs : List ZoneLog
deriving DecidableEq, Repr

/-- JS `String(n).padStart(3, "0")` as used by the id generators. -/
def padStart3 (s : String) : String :=
  if 3 ≤ s.length then s else String.mk (List.replicate (3 - s.length) '0') ++ s

/-- Outcome of the `POST /zones` round trip as the caller observes it:
`ok` is a response with `response.ok` true, `failure msg` covers a non-ok
status or a rejected fetch, where `msg` is the message of the error that the
catch block receives. -/
inductive SaveOutcome where
  | ok
  | failure (msg : String)
deriving DecidableEq, Repr

namespace UseZones

/-- State held by the `useZones` hook: the two collections plus the surfaced
error string.  The transient `loading` flag is a UI spinner toggle that is
always false again when an operation returns, so it is omitted. -/
structure ZonesState where
  zones : List HighRiskZone
  logs : List ZoneLog
  error : Option String
deriving DecidableEq, Repr

/-- Result of a hook operation: the boolean it returns, the state it leaves
behind, and the snapshot it POSTed to the remote store (`none` when the
operation never reached the network). -/
structure OpResult where
  success : Bool
  state : ZonesState
  posted : Option ZonesData
deriving DecidableEq, Repr

/-- `saveZones` (src/hooks/useZones.ts lines 91-132): POSTs the full
`{zones, logs}` payload; only on a successful response does it copy the
payload into the in-memory state (`setZones`/`setLogs`); on failure it
records the error message and leaves both collections untouched.  The
initial `setError(null)` is visible in the success branch, and is
overwritten by `setError(msg)` in the failure branch. -/
def saveZones (st : ZonesState) (zonesData : List HighRiskZone) (logsData : List ZoneLog)
    (outcome : SaveOutcome) : Bool × ZonesState :=
  match outcome with
  | .ok => (true, { zones := zonesData, logs := logsData, error := none })
  | .failure msg => (false, { st with error := some msg })

/-- Wire form of the GET response body: the `zones` and `logs` fields may be
absent, which the hook patches with `data.zones || []` and `data.logs || []`. -/
structure ZonesWire where
  zones : Option (List HighRiskZone)
  logs : Option (List ZoneLog)
deriving DecidableEq, Repr

/-- Outcome of the `GET /zones` round trip: a parsed body, a 404, another
HTTP status (which the hook turns into a thrown `Error`), or any other
exception (rejected fetch, body parse failure) with its message. -/
inductive FetchOutcome where
  | ok (data : ZonesWire)
  | notFound
  | httpError (status : Nat)
  | thrown (msg : String)
deriving DecidableEq, Repr

/-- `loadZones` (src/hooks/useZones.ts lines 50-88).  It reads no prior
state: every branch overwrites both collections.  `response.ok` installs the
snapshot, 404 installs empty collections and still returns true, any other
status throws `HTTP error! status: N` into the catch block, which records
the message, empties both collections and returns false. -/
def loadZones (outcome : FetchOutcome) : Bool × ZonesState :=
  match outcome with
  | .ok data => (true, { zones := data.zones.getD [], logs := data.logs.getD [], error := none })
  | .notFound => (true, { zones := [], logs := [], error := none })
  | .httpError status =>
      (false, { zones := [], logs := [], error := some ("HTTP error! status: " ++ toString status) })
  | .thrown msg => (false, { zones := [], logs := [], error := some msg })

/-- `createZone` (src/hooks/useZones.ts lines 135-181): synthesizes the new
zone and the `created` log entry, appends the zone at the end of `zones`,
pushes the log entry on the front of `logs`, and delegates persistence to
`saveZones`.  There is no validation of `name` or `coordinates`.  Both
`new Date().toISOString()` calls are modelled by the clock value `now`. -/
def createZone (st : ZonesState) (name description : String) (coordinates : List Coord)
    (severity : Severity) (now : String) (outcome : SaveOutcome) : OpResult :=
  let newZone : HighRiskZone :=
    { id := "HRZ" ++ padStart3 (toString (st.zones.length + 1))
      name := name
      description := description
      coordinates := coordinates
      severity := severity
      createdAt := now
      createdBy := "Police Department"
      isActive := true }
  let updatedZones := st.zones ++ [newZone]
  let logEntry : ZoneLog :=
    { id := "LOG" ++ padStart3 (toString (st.logs.length + 1))
      action := .created
      zoneName := name
      timestamp := now
      officer := "Police Department"
      details := "New " ++ severity.toWire ++ " severity zone created: " ++ description }
  let updatedLogs := logEntry :: st.logs
  let r := saveZones st updatedZones updatedLogs outcome
  { success := r.1, state := r.2, posted := some ⟨updatedZones, updatedLogs⟩ }

/-- `deleteZone` (src/hooks/useZones.ts lines 184-221): looks the zone up by
id; an unknown id throws `Zone not found`, which the catch block records,
returning false with no network traffic.  Otherwise it flips `isActive` to
false on every zone whose id matches, pushes a `deleted` log entry on the
front, and delegates persistence to `saveZones`. -/
def deleteZone (st : ZonesState) (zoneId : String) (now : String)
    (outcome : SaveOutcome) : OpResult :=
  match st.zones.find? (fun z => z.id == zoneId) with
  | none =>
      { success := false
        state := { st with error := some "Zone not found" }
        posted := none }
  | some zone =>
      let updatedZones :=
        st.zones.map (fun z => if z.id == zoneId then { z with isActive := false } else z)
      let logEntry : ZoneLog :=
        { id := "LOG" ++ padStart3 (toString (st.logs.length + 1))
          action := .deleted
          zoneName := zone.name
          timestamp := now
          officer := "Police Department"
          details := "High-risk zone deactivated" }
      let updatedLogs := logEntry :: st.logs
      let r := saveZones st updatedZones updatedLogs outcome
      { success := r.1, state := r.2, posted := some ⟨updatedZones, updatedLogs⟩ }

/-- `getActiveZones` (src/hooks/useZones.ts lines 224-226). -/
def getActiveZones (zones : List HighRiskZone) : List HighRiskZone :=
  zones.filter (fun zone => zone.isActive)

/-- `getRecentLogs` (src/hooks/useZones.ts lines 229-231), default limit 10. -/
def getRecentLogs (logs : List ZoneLog) (limit : Nat) : List ZoneLog :=
  logs.take limit

end UseZones

namespace Editor

/-- The `DrawingMode` union type of the component. -/
inductive DrawingMode where
  | none
  | polygon
  | editing
deriving DecidableEq, Repr

/-- State of the `HighRiskZones` component that the claims touch: the
drawing session (mode, accumulated points, dialog flag, form fields), the
component-local copies of the zones and logs collections, and the current
selection.  Map handles, markers and loading flags are rendering concerns
with no bearing on the claims. -/
structure EditorState where
  drawingMode : DrawingMode
  drawingCoordinates : List Coord
  isDialogOpen : Bool
  newZoneName : String
  newZoneDescription : String
  newZoneSeverity : Severity
  highRiskZones : List HighRiskZone
  zoneLog : List ZoneLog
  selectedZone : Option HighRiskZone
deriving DecidableEq, Repr

/-- `startPolygonDrawing` (src/components/high-risk-zones.tsx lines
335-345): enters polygon mode and clears any stale points. -/
def startPolygonDrawing (st : EditorState) : EditorState :=
  { st with drawingMode := .polygon, drawingCoordinates := [] }

/-- `finishPolygon` (src/components/high-risk-zones.tsx lines 347-360):
with fewer than 3 points it only raises the alert and changes nothing;
otherwise it leaves polygon mode and opens the metadata dialog, keeping the
accumulated points for the later commit.  The second component is the alert
message, `none` when no alert is shown. -/
def finishPolygon (st : EditorState) : EditorState × Option String :=
  if st.drawingCoordinates.length < 3 then
    (st, some "Please mark at least 3 points to create a polygon")
  else
    ({ st with drawingMode := .none, isDialogOpen := true }, Option.none)

/-- `cancelDrawing` (src/components/high-risk-zones.tsx lines 362-372):
leaves drawing mode and discards the accumulated points (the marker and
preview teardown is pure rendering). -/
def cancelDrawing (st : EditorState) : EditorState :=
  { st with drawingMode := .none, drawingCoordinates := [] }

/-- The Cancel button of the New Zone dialog (src/components/high-risk-zones.tsx
lines 984-987) runs only `setIsDialogOpen(false)`: it closes the dialog and
touches nothing else. -/
def dialogCancel (st : EditorState) : EditorState :=
  { st with isDialogOpen := false }

/-- JS `String.prototype.trim()`: strips whitespace from both ends.
Implemented over the character list so that it evaluates by reduction. -/
def jsTrim (s : String) : String :=
  String.mk (((s.data.dropWhile Char.isWhitespace).reverse.dropWhile Char.isWhitespace).reverse)

/-- `saveNewZone` (src/components/high-risk-zones.tsx lines 504-547): the
guard returns early when the trimmed name is empty or fewer than 3 points
were drawn.  Otherwise it updates the component state (`setHighRiskZones`,
`setZoneLog`) BEFORE awaiting `saveZonesData`, whose catch block swallows
every failure, and then resets the form and drawing state.  The resulting
state is therefore identical whether the POST succeeds or fails, which is
why the save outcome parameter is unused.  The second component is the
snapshot POSTed to the remote store, `none` when the guard rejected. -/
def saveNewZone (st : EditorState) (now : String) (_outcome : SaveOutcome) :
    EditorState × Option ZonesData :=
  if jsTrim st.newZoneName = "" ∨ st.drawingCoordinates.length < 3 then
    (st, Option.none)
  else
    let newZone : HighRiskZone :=
      { id := "HRZ" ++ padStart3 (toString (st.highRiskZones.length + 1))
        name := st.newZoneName
        description := st.newZoneDescription
        coordinates := st.drawingCoordinates
        severity := st.newZoneSeverity
        createdAt := now
        createdBy := "Current Officer"
        isActive := true }
    let updatedZones := st.highRiskZones ++ [newZone]
    let logEntry : ZoneLog :=
      { id := "LOG" ++ padStart3 (toString (st.zoneLog.length + 1))
        action := .created
        zoneName := st.newZoneName
        timestamp := now
        officer := "Current Officer"
        details := "New " ++ st.newZoneSeverity.toWire ++ " severity zone created: "
          ++ st.newZoneDescription }
    let updatedLogs := logEntry :: st.zoneLog
    ({ st with
        highRiskZones := updatedZones
        zoneLog := updatedLogs
        newZoneName := ""
        newZoneDescription := ""
        newZoneSeverity := .medium
        drawingCoordinates := []
        isDialogOpen := false },
     some ⟨updatedZones, updatedLogs⟩)

/-- The component-local `deleteZone` (src/components/high-risk-zones.tsx
lines 549-591): silently returns on an unknown id; otherwise it updates the
component state BEFORE awaiting `saveZonesData` (failures swallowed, as in
`saveNewZone`) and clears the selection.  The second component is the
POSTed snapshot, `none` when nothing was sent. -/
def deleteZone (st : EditorState) (zoneId : String) (now : String) (_outcome : SaveOutcome) :
    EditorState × Option ZonesData :=
  match st.highRiskZones.find? (fun z => z.id == zoneId) with
  | Option.none => (st, Option.none)
  | some zone =>
      let updatedZones :=
        st.highRiskZones.map (fun z => if z.id == zoneId then { z with isActive := false } else z)
      let logEntry : ZoneLog :=
        { id := "LOG" ++ padStart3 (toString (st.zoneLog.length + 1))
          action := .deleted
          zoneName := zone.name
          timestamp := now
          officer := "Current Officer"
          details := "High-risk zone deactivated" }
      let updatedLogs := logEntry :: st.zoneLog
      ({ st with
          highRiskZones := updatedZones
          zoneLog := updatedLogs
          selectedZone := Option.none },
       some ⟨updatedZones, updatedLogs⟩)

/-- JS division of two numbers where the divisor may be zero: `x / 0` is
NaN, which is not a rational value; it is modelled as `none`. -/
def jsDiv (x y : ℚ) : Option ℚ :=
  if y = 0 then Option.none else some (x / y)

/-- `getPolygonCenter` (src/components/high-risk-zones.tsx lines 638-646):
sums the latitudes and the longitudes with `reduce(..., 0)` and divides each
sum by `coordinates.length`, with no guard against the empty list.  The
returned `{lat, lng}` record is the pair (latitude, longitude). -/
def getPolygonCenter (coordinates : List Coord) : Option ℚ × Option ℚ :=
  (jsDiv (coordinates.foldl (fun sum coord => sum + coord.lat) 0) coordinates.length,
   jsDiv (coordinates.foldl (fun sum coord => sum + coord.lng) 0) coordinates.length)

/-- The `properties` object of an exported Feature. -/
structure GeoProperties where
  id : String
  name : String
  description : String
  severity : Severity
  createdAt : String
  createdBy : String
deriving DecidableEq, Repr

/-- One Feature of the export.  `ring` is `geometry.coordinates[0]`, a list
of positions written `[lng, lat]`, modelled as pairs (lng, lat); the
geometry type is always `Polygon`. -/
structure GeoFeature where
  properties : GeoProperties
  ring : List (ℚ × ℚ)
deriving DecidableEq, Repr

/-- `geojsonData` (src/components/high-risk-zones.tsx lines 652-674): the
features array of the exported FeatureCollection.  Active zones are kept,
each mapped to one Polygon feature whose ring is the stored vertex list
mapped to `[lng, lat]` positions, exactly as the source writes it. -/
def geojsonData (highRiskZones : List HighRiskZone) : List GeoFeature :=
  (highRiskZones.filter (fun zone => zone.isActive)).map (fun zone =>
    { properties :=
        { id := zone.id
          name := zone.name
          description := zone.description
          severity := zone.severity
          createdAt := zone.createdAt
          createdBy := zone.createdBy }
      ring := zone.coordinates.map (fun coord => (coord.lng, coord.lat)) })

end Editor

/-! Concrete sample data used to instantiate the claims. -/

/-- A store holding one active and one inactive zone, exercising the export. -/
def c2Zones : List HighRiskZone :=
  [ { id := "HRZ001", name := "Alpha", description := "d1",
      coordinates := [⟨0, 0⟩, ⟨0, 2⟩, ⟨2, 2⟩], severity := .high,
      createdAt := "t1", createdBy := "o1", isActive := true },
    { id := "HRZ002", name := "Beta", description := "d2",
      coordinates := [⟨1, 1⟩, ⟨1, 3⟩, ⟨3, 3⟩], severity := .low,
      createdAt := "t2", createdBy := "o2", isActive := false } ]

/-- An editor state mid-review with a whitespace-only name in the form. -/
def c3State : Editor.EditorState :=
  { drawingMode := .none
    drawingCoordinates := [⟨0, 0⟩, ⟨0, 1⟩, ⟨1, 1⟩, ⟨1, 0⟩, ⟨2, 2⟩]
    isDialogOpen := true
    newZoneName := "   "
    newZoneDescription := "d"
    newZoneSeverity := .high
    highRiskZones := []
    zoneLog := []
    selectedZone := Option.none }

/-- A single active zone used to exercise deactivation. -/
def c5Zone : HighRiskZone :=
  { id := "HRZ001", name := "Market", description := "pickpocket risk",
    coordinates := [⟨13, 80⟩, ⟨14, 80⟩, ⟨14, 81⟩], severity := .high,
    createdAt := "2024-01-01", createdBy := "Police Department", isActive := true }

/-- A single zone whose id differs from the one being deactivated. -/
def c6Zone : HighRiskZone :=
  { id := "HRZ001", name := "Harbor", description := "night muggings",
    coordinates := [⟨13, 80⟩, ⟨14, 80⟩, ⟨14, 81⟩], severity := .medium,
    createdAt := "2024-02-02", createdBy := "Police Department", isActive := true }

/-- A drawing session holding three accumulated points. -/
def c7State : Editor.EditorState :=
  { drawingMode := .polygon
    drawingCoordinates := [⟨1, 2⟩, ⟨3, 4⟩, ⟨5, 6⟩]
    isDialogOpen := false
    newZoneName := ""
    newZoneDescription := ""
    newZoneSeverity := .medium
    highRiskZones := []
    zoneLog := []
    selectedZone := Option.none }

/-- A drawing session with three points, about to be finished. -/
def c8State : Editor.EditorState :=
  { drawingMode := .polygon
    drawingCoordinates := [⟨0, 0⟩, ⟨0, 1⟩, ⟨1, 1⟩]
    isDialogOpen := false
    newZoneName := ""
    newZoneDescription := ""
    newZoneSeverity := .medium
    highRiskZones := []
    zoneLog := []
    selectedZone := Option.none }

/-- An editor state ready to commit a new zone while the remote store is down. -/
def c1State : Editor.EditorState :=
  { drawingMode := .none
    drawingCoordinates := [⟨13, 80⟩, ⟨14, 80⟩, ⟨14, 81⟩]
    isDialogOpen := true
    newZoneName := "Market"
    newZoneDescription := "pickpocket risk"
    newZoneSeverity := .high
    highRiskZones := []
    zoneLog := []
    selectedZone := Option.none }

/-- The square from the centroid example. -/
def c10Square : List Coord := [⟨0, 0⟩, ⟨0, 2⟩, ⟨2, 2⟩, ⟨2, 0⟩]

/-! Helper lemmas. -/

/-- Folding addition of a projected value equals the initial accumulator plus
the sum of the projections. -/
theorem foldl_add_proj (f : Coord → ℚ) (l : List Coord) (a : ℚ) :
    l.foldl (fun sum coord => sum + f coord) a = a + (l.map f).sum := by
  induction l generalizing a with
  | nil => simp
  | cons x xs ih => simp [ih, add_assoc]

/-- A list maps to itself under a function that fixes each of its members. -/
theorem map_fix_of_mem {α : Type} (f : α → α) (l : List α)
    (h : ∀ x ∈ l, f x = x) : l.map f = l := by
  induction l with
  | nil => rfl
  | cons x xs ih =>
      rw [List.map_cons, h x (List.mem_cons_self x xs),
        ih (fun y hy => h y (List.mem_cons_of_mem x hy))]

/-- Searching past a prefix with no matches lands on the first match. -/
theorem find_skip_to_match {α : Type} (p : α → Bool) (l₁ l₂ : List α) (z : α)
    (h₁ : ∀ w ∈ l₁, p w = false) (hz : p z = true) :
    (l₁ ++ z :: l₂).find? p = some z := by
  induction l₁ with
  | nil => exact List.find?_cons_of_pos _ hz
  | cons x xs ih =>
      rw [List.cons_append,
        List.find?_cons_of_neg _ (by simp [h₁ x (List.mem_cons_self x xs)])]
      exact ih (fun y hy => h₁ y (List.mem_cons_of_mem x hy))

/-! Claim theorems. -/

/-- Claim C7: from the drawing state, `finishPolygon` with at least 3
accumulated points moves to the reviewing state (dialog open, drawing mode
ended, points kept); with fewer than 3 points it only raises the validation
alert, leaving the whole state, mode and point sequence included,
unchanged. -/
theorem C7_finish_gate (st : Editor.EditorState) (_h : st.drawingMode = .polygon) :
    (3 ≤ st.drawingCoordinates.length →
      Editor.finishPolygon st
        = ({ st with drawingMode := .none, isDialogOpen := true }, Option.none))
    ∧ (st.drawingCoordinates.length < 3 →
      Editor.finishPolygon st
        = (st, some "Please mark at least 3 points to create a polygon")) := by
  constructor
  · intro h3
    simp [Editor.finishPolygon, Nat.not_lt.mpr h3]
  · intro h3
    simp [Editor.finishPolygon, h3]

/-- Claim C7 witness: finishing a three-point session opens the dialog and
ends drawing mode, keeping the points. -/
theorem C7_finish_gate_witness :
    Editor.finishPolygon c7State
      = ({ c7State with drawingMode := .none, isDialogOpen := true }, Option.none) :=
  (C7_finish_gate c7State rfl).1 (by decide)

/-- Claim C8 (amended): `cancelDrawing` always returns to idle — mode
`none`, empty point sequence — and leaves the zones and logs collections
untouched; the dialog Cancel button of the reviewing state only closes the
dialog, leaving the accumulated point sequence (and the collections)
exactly as they were. -/
theorem C8_cancel_paths (st : Editor.EditorState) :
    (Editor.cancelDrawing st).drawingMode = .none
    ∧ (Editor.cancelDrawing st).drawingCoordinates = []
    ∧ (Editor.cancelDrawing st).highRiskZones = st.highRiskZones
    ∧ (Editor.cancelDrawing st).zoneLog = st.zoneLog
    ∧ (Editor.dialogCancel st).isDialogOpen = false
    ∧ (Editor.dialogCancel st).drawingCoordinates = st.drawingCoordinates
    ∧ (Editor.dialogCancel st).highRiskZones = st.highRiskZones
    ∧ (Editor.dialogCancel st).zoneLog = st.zoneLog :=
  ⟨rfl, rfl, rfl, rfl, rfl, rfl, rfl, rfl⟩

/-- Claim C8 counterexample: cancelling from the reviewing state (reached by
finishing a three-point session) does not empty the point sequence — the
dialog Cancel button only closes the dialog. -/
theorem C8_counterexample :
    (Editor.dialogCancel (Editor.finishPolygon c8State).1).drawingCoordinates ≠ [] := by
  decide

/-- Claim C9: `loadZones` succeeds with the snapshot contents on a parsed
response (absent fields patched to empty), succeeds with empty collections
on a 404, and on any other failure records the error message, empties both
collections and reports failure; being a total function of the observed
outcome, it throws nothing past the store boundary. -/
theorem C9_load_behavior (wire : UseZones.ZonesWire) (status : Nat) (msg : String) :
    UseZones.loadZones (.ok wire)
        = (true, { zones := wire.zones.getD [], logs := wire.logs.getD [], error := Option.none })
    ∧ UseZones.loadZones .notFound
        = (true, { zones := [], logs := [], error := Option.none })
    ∧ UseZones.loadZones (.httpError status)
        = (false, { zones := [], logs := [],
                    error := some ("HTTP error! status: " ++ toString status) })
    ∧ UseZones.loadZones (.thrown msg)
        = (false, { zones := [], logs := [], error := some msg }) :=
  ⟨rfl, rfl, rfl, rfl⟩

/-- Claim C10: for a non-empty coordinate list the polygon center is the
arithmetic mean of the latitudes and of the longitudes, on the sample square
it is (1, 1), and for the empty list the guard-free division by the length
divides by zero, yielding no well-defined coordinate. -/
theorem C10_center (coords : List Coord) (h : coords ≠ []) :
    Editor.getPolygonCenter coords
      = (some ((coords.map (fun c => c.lat)).sum / (coords.length : ℚ)),
         some ((coords.map (fun c => c.lng)).sum / (coords.length : ℚ)))
    ∧ Editor.getPolygonCenter c10Square = (some 1, some 1)
    ∧ Editor.getPolygonCenter [] = (Option.none, Option.none) := by
  refine ⟨?_, by norm_num [Editor.getPolygonCenter, Editor.jsDiv, c10Square],
    by simp [Editor.getPolygonCenter, Editor.jsDiv]⟩
  have hlen : ((coords.length : ℚ)) ≠ 0 := by
    simpa using h
  simp [Editor.getPolygonCenter, Editor.jsDiv, hlen, foldl_add_proj]

/-- Claim C10 witness: on the sample square the center computation applies
with its mean characterization. -/
theorem C10_center_witness :
    Editor.getPolygonCenter c10Square
      = (some ((c10Square.map (fun c => c.lat)).sum / (c10Square.length : ℚ)),
         some ((c10Square.map (fun c => c.lng)).sum / (c10Square.length : ℚ))) :=
  (C10_center c10Square (by decide)).1

/-- Claim C4: after a successful `createZone` the number of active zones
grows by exactly 1, the new zone (appended last) is active and carries the
requested name, and the newest log entry (index 0 of the newest-first
sequence) has action `created` with the new zone's name. -/
theorem C4_create_success (st : UseZones.ZonesState) (name description : String)
    (coords : List Coord) (sev : Severity) (now : String) :
    (UseZones.createZone st name description coords sev now .ok).success = true
    ∧ (UseZones.getActiveZones
          (UseZones.createZone st name description coords sev now .ok).state.zones).length
        = (UseZones.getActiveZones st.zones).length + 1
    ∧ ((UseZones.createZone st name description coords sev now .ok).state.zones.getLast?.map
        (fun z => z.isActive)) = some true
    ∧ ((UseZones.createZone st name description coords sev now .ok).state.zones.getLast?.map
        (fun z => z.name)) = some name
    ∧ ((UseZones.createZone st name description coords sev now .ok).state.logs.head?.map
        (fun e => e.action)) = some ZoneAction.created
    ∧ ((UseZones.createZone st name description coords sev now .ok).state.logs.head?.map
        (fun e => e.zoneName)) = some name := by
  refine ⟨rfl, ?_, ?_, ?_, rfl, rfl⟩
  · simp [UseZones.createZone, UseZones.saveZones, UseZones.getActiveZones, List.filter_append]
  · simp [UseZones.createZone, UseZones.saveZones]
  · simp [UseZones.createZone, UseZones.saveZones]

/-- Claim C5: a successful `deleteZone` on a store whose zone list splits as
`l₁ ++ z :: l₂`, with the target id matching exactly the zone `z` and `z`
active, flips only the `isActive` field of `z` (all the other fields and all
the other zones untouched, in place), shrinks the active count by exactly 1,
and pushes a `deleted` log entry carrying the zone's name on the front of an
otherwise unchanged log. -/
theorem C5_deactivate_success (st : UseZones.ZonesState) (l₁ l₂ : List HighRiskZone)
    (z : HighRiskZone) (zoneId now : String)
    (hzones : st.zones = l₁ ++ z :: l₂)
    (hid : z.id = zoneId)
    (hact : z.isActive = true)
    (h₁ : ∀ w ∈ l₁, w.id ≠ zoneId)
    (h₂ : ∀ w ∈ l₂, w.id ≠ zoneId) :
    (UseZones.deleteZone st zoneId now .ok).success = true
    ∧ (UseZones.deleteZone st zoneId now .ok).state.zones
        = l₁ ++ { z with isActive := false } :: l₂
    ∧ (UseZones.getActiveZones (UseZones.deleteZone st zoneId now .ok).state.zones).length + 1
        = (UseZones.getActiveZones st.zones).length
    ∧ ((UseZones.deleteZone st zoneId now .ok).state.logs.head?.map (fun e => e.action))
        = some ZoneAction.deleted
    ∧ ((UseZones.deleteZone st zoneId now .ok).state.logs.head?.map (fun e => e.zoneName))
        = some z.name
    ∧ (UseZones.deleteZone st zoneId now .ok).state.logs.tail = st.logs := by
  have hfind : st.zones.find? (fun w => w.id == zoneId) = some z := by
    rw [hzones]
    exact find_skip_to_match _ _ _ _ (fun w hw => by simpa using h₁ w hw) (by simpa using hid)
  have hmap : st.zones.map (fun w => if w.id == zoneId then { w with isActive := false } else w)
      = l₁ ++ { z with isActive := false } :: l₂ := by
    rw [hzones, List.map_append, List.map_cons]
    rw [map_fix_of_mem _ _ (fun w hw => by simp [beq_iff_eq, h₁ w hw])]
    rw [map_fix_of_mem _ _ (fun w hw => by simp [beq_iff_eq, h₂ w hw])]
    simp [beq_iff_eq, hid]
  have hdel : UseZones.deleteZone st zoneId now .ok
      = { success := true
          state :=
            { zones := l₁ ++ { z with isActive := false } :: l₂
              logs :=
                { id := "LOG" ++ padStart3 (toString (st.logs.length + 1))
                  action := .deleted
                  zoneName := z.name
                  timestamp := now
                  officer := "Police Department"
                  details := "High-risk zone deactivated" } :: st.logs
              error := Option.none }
          posted :=
            some ⟨l₁ ++ { z with isActive := false } :: l₂,
              { id := "LOG" ++ padStart3 (toString (st.logs.length + 1))
                action := .deleted
                zoneName := z.name
                timestamp := now
                officer := "Police Department"
                details := "High-risk zone deactivated" } :: st.logs⟩ } := by
    unfold UseZones.deleteZone
    rw [hfind, hmap]
    rfl
  refine ⟨by rw [hdel], by rw [hdel], ?_, by rw [hdel]; rfl, by rw [hdel]; rfl,
    by rw [hdel]; rfl⟩
  rw [hdel, hzones]
  simp [UseZones.getActiveZones, List.filter_append, List.filter_cons, hact]
  omega

/-- Claim C5 witness: deactivating the single active zone of a one-zone
store leaves exactly that zone with `isActive` flipped to false. -/
theorem C5_deactivate_success_witness :
    (UseZones.deleteZone ⟨[c5Zone], [], Option.none⟩ "HRZ001" "2024-03-03" .ok).state.zones
      = [{ c5Zone with isActive := false }] :=
  (C5_deactivate_success ⟨[c5Zone], [], Option.none⟩ [] [] c5Zone "HRZ001" "2024-03-03"
    rfl rfl rfl (by simp) (by simp)).2.1

/-- Claim C6: `deleteZone` with an id that no stored zone carries reports
failure, leaves the zones and logs collections unchanged, and sends nothing
to the remote store. -/
theorem C6_deactivate_unknown (st : UseZones.ZonesState) (zoneId now : String)
    (outcome : SaveOutcome) (h : ∀ z ∈ st.zones, z.id ≠ zoneId) :
    (UseZones.deleteZone st zoneId now outcome).success = false
    ∧ (UseZones.deleteZone st zoneId now outcome).state.zones = st.zones
    ∧ (UseZones.deleteZone st zoneId now outcome).state.logs = st.logs
    ∧ (UseZones.deleteZone st zoneId now outcome).posted = Option.none := by
  have hfind : st.zones.find? (fun z => z.id == zoneId) = Option.none := by
    rw [List.find?_eq_none]
    intro z hz
    simpa using h z hz
  simp [UseZones.deleteZone, hfind]

/-- Claim C6 witness: deactivating the unknown id HRZ999 on a one-zone store
changes nothing and posts nothing. -/
theorem C6_deactivate_unknown_witness :
    (UseZones.deleteZone ⟨[c6Zone], [], Option.none⟩ "HRZ999" "t" .ok).state.zones = [c6Zone]
    ∧ (UseZones.deleteZone ⟨[c6Zone], [], Option.none⟩ "HRZ999" "t" .ok).posted = Option.none :=
  ⟨(C6_deactivate_unknown ⟨[c6Zone], [], Option.none⟩ "HRZ999" "t" .ok (by decide)).2.1,
   (C6_deactivate_unknown ⟨[c6Zone], [], Option.none⟩ "HRZ999" "t" .ok (by decide)).2.2.2⟩

/-- Claim C1 (amended): for the Zone Store hook operations `createZone` and
`deleteZone` (both persisting through `saveZones`), a failed remote write
reports failure and leaves the in-memory zones and logs collections exactly
as they were, while a successful write reports success and installs in
memory exactly the snapshot that was POSTed; when `deleteZone` posts
nothing, no update happens either. -/
theorem C1_store_allOrNothing (st : UseZones.ZonesState) (name description : String)
    (coords : List Coord) (sev : Severity) (now msg zoneId : String) :
    ((UseZones.createZone st name description coords sev now (.failure msg)).success = false
      ∧ (UseZones.createZone st name description coords sev now (.failure msg)).state.zones
          = st.zones
      ∧ (UseZones.createZone st name description coords sev now (.failure msg)).state.logs
          = st.logs)
    ∧ ((UseZones.createZone st name description coords sev now .ok).success = true
      ∧ (UseZones.createZone st name description coords sev now .ok).posted
          = some ⟨(UseZones.createZone st name description coords sev now .ok).state.zones,
                  (UseZones.createZone st name description coords sev now .ok).state.logs⟩)
    ∧ ((UseZones.deleteZone st zoneId now (.failure msg)).success = false
      ∧ (UseZones.deleteZone st zoneId now (.failure msg)).state.zones = st.zones
      ∧ (UseZones.deleteZone st zoneId now (.failure msg)).state.logs = st.logs)
    ∧ ((UseZones.deleteZone st zoneId now .ok).posted = Option.none
      ∨ ((UseZones.deleteZone st zoneId now .ok).success = true
        ∧ (UseZones.deleteZone st zoneId now .ok).posted
            = some ⟨(UseZones.deleteZone st zoneId now .ok).state.zones,
                    (UseZones.deleteZone st zoneId now .ok).state.logs⟩)) := by
  refine ⟨⟨rfl, rfl, rfl⟩, ⟨rfl, rfl⟩, ?_, ?_⟩
  · cases hf : st.zones.find? (fun z => z.id == zoneId) with
    | none =>
        refine ⟨?_, ?_, ?_⟩ <;> · unfold UseZones.deleteZone; rw [hf]
    | some zone =>
        refine ⟨?_, ?_, ?_⟩ <;> · unfold UseZones.deleteZone; rw [hf]; rfl
  · cases hf : st.zones.find? (fun z => z.id == zoneId) with
    | none =>
        left
        unfold UseZones.deleteZone
        rw [hf]
    | some zone =>
        right
        refine ⟨?_, ?_⟩ <;> · unfold UseZones.deleteZone; rw [hf]; rfl

/-- Claim C1 counterexample: the editor component's own create path
(`saveNewZone`) updates the in-memory zones collection although the remote
write fails — the failure is swallowed and the new zone stays visible. -/
theorem C1_counterexample :
    (Editor.saveNewZone c1State "2024-01-01T00:00:00.000Z"
        (.failure "network down")).1.highRiskZones.length = 1
    ∧ c1State.highRiskZones.length = 0 :=
  ⟨rfl, rfl⟩

/-- Claim C2: at a store holding the active zone HRZ001 (vertex list of
length 3) and the inactive zone HRZ002, the export produces exactly one
feature, for the active zone only — but its ring is the bare vertex list:
the first and last coordinates differ because the closing vertex is never
appended. -/
theorem C2_export_ring_not_closed :
    (Editor.geojsonData c2Zones).length = 1
    ∧ ((Editor.geojsonData c2Zones).map (fun f => f.properties.id)) = ["HRZ001"]
    ∧ ((Editor.geojsonData c2Zones).map (fun f => f.ring))
        = [[((0 : ℚ), (0 : ℚ)), (2, 0), (2, 2)]]
    ∧ ((Editor.geojsonData c2Zones).map
        (fun f => decide (f.ring.head? = f.ring.getLast?))) = [false] := by
  refine ⟨rfl, rfl, by decide, by decide⟩

/-- Claim C3 counterexample: the Zone Store hook's `createZone` performs no
validation at all — called with a blank name and an empty point list it
still POSTs a snapshot to the remote store and, the write succeeding, grows
the in-memory zones collection. -/
theorem C3_counterexample :
    (UseZones.createZone ⟨[], [], Option.none⟩ "" "desc" [] .medium "t" .ok).posted.isSome = true
    ∧ (UseZones.createZone ⟨[], [], Option.none⟩ "" "desc" [] .medium "t" .ok).state.zones.length
        = 1 :=
  ⟨rfl, rfl⟩

/-- Claim C3 (amended): the create gate lives in the component, not the
hook: `saveNewZone` with a blank (empty or whitespace-only) name or fewer
than 3 drawn points returns with the state untouched and nothing sent to
the remote store; the hook's `createZone` itself has no such gate. -/
theorem C3_component_create_gate (st : Editor.EditorState) (now : String)
    (outcome : SaveOutcome)
    (h : Editor.jsTrim st.newZoneName = "" ∨ st.drawingCoordinates.length < 3) :
    Editor.saveNewZone st now outcome = (st, Option.none) := by
  unfold Editor.saveNewZone
  rw [if_pos h]

/-- Claim C3 witness: a whitespace-only name blocks the commit even with
five points drawn. -/
theorem C3_component_create_gate_witness :
    Editor.saveNewZone c3State "t" .ok = (c3State, Option.none) :=
  C3_component_create_gate c3State "t" .ok (Or.inl (by decide))

end ZoneEditor
